import Mathlib

/-!
Verification of the AI-readiness assessment frontend
(`src/frontend/next.config.ts` — the `AssessmentPage` component — and
`src/frontend/lib/api.ts`) together with a spec-modelled backend session
state machine.  The definitions below are shallow embeddings of the
TypeScript source; backend operations that do not appear under `src/`
are modelled from the specification and marked as such.
-/

namespace Assessment

/-- The `businessInfo` record of `AssessmentPage`
(`useState({ name: "", industry: "", size: "", location: "" })`). -/
structure BusinessInfo where
  name : String
  industry : String
  size : String
  location : String
deriving DecidableEq, Repr

/-- The `QuestionData` interface of the frontend: question identifier,
owning section identifier and display name, prompt text, optional
description, and the scoring rubric (score key → rubric text).
`Record<string, string>` is embedded as an association list. -/
structure QuestionData where
  question_id : String
  section_id : String
  section_name : String
  question : String
  description : Option String
  scoring_rubric : List (String × String)
deriving DecidableEq, Repr

/-- Accumulate the value of a maximal leading run of decimal digits,
`acc` holding the digits already consumed. -/
def digitsVal (acc : Nat) : List Char → Nat
  | [] => acc
  | c :: cs => if c.isDigit then digitsVal (acc * 10 + (c.toNat - 48)) cs else acc

/-- JavaScript `parseInt(s)` (radix 10): skip leading whitespace, accept an
optional sign, then read the longest prefix of decimal digits; `none`
stands for `NaN` (no digits found). -/
def parseIntJS (s : String) : Option Int :=
  match s.data.dropWhile Char.isWhitespace with
  | '-' :: c :: cs =>
      if c.isDigit then some (-(digitsVal (c.toNat - 48) cs : Int)) else none
  | '+' :: c :: cs =>
      if c.isDigit then some ((digitsVal (c.toNat - 48) cs : Int)) else none
  | c :: cs =>
      if c.isDigit then some ((digitsVal (c.toNat - 48) cs : Int)) else none
  | [] => none

/-- The comparator `([a], [b]) => parseInt(a) - parseInt(b)` used to sort the
rubric entries; per the ECMAScript sort algorithm a `NaN` comparator result
is treated as `+0`. -/
def rubricCmp (a b : String) : Int :=
  match parseIntJS a, parseIntJS b with
  | some x, some y => x - y
  | _, _ => 0

/-- Stable insertion of one rubric entry into an already sorted list
(an element coming later in the original order lands after entries that
compare equal, matching the stability of `Array.prototype.sort`). -/
def insertByCmp (x : String × String) : List (String × String) → List (String × String)
  | [] => [x]
  | y :: ys => if rubricCmp x.1 y.1 < 0 then x :: y :: ys else y :: insertByCmp x ys

/-- `Object.entries(questionData.scoring_rubric).sort(([a],[b]) => parseInt(a) - parseInt(b))`:
the rubric entries in the order the answer buttons are rendered. -/
def sortedRubric (q : QuestionData) : List (String × String) :=
  q.scoring_rubric.foldl (fun acc x => insertByCmp x acc) []

/-- JavaScript `String.prototype.trim()`: remove whitespace from both ends
of the string. -/
def trimJS (s : String) : String :=
  ⟨((s.data.dropWhile Char.isWhitespace).reverse.dropWhile Char.isWhitespace).reverse⟩

/-- The `cleanBusinessInfo` value built in the start form's `onSubmit`:
`{ ...businessInfo, industry: businessInfo.industry.trim() }` — only the
industry field is trimmed. -/
def cleanBusinessInfo (b : BusinessInfo) : BusinessInfo :=
  { b with industry := trimJS b.industry }

/-- The progress dot state `isCompleted = i < currentQuestionIdx`. -/
def isCompletedDot (i currentQuestionIdx : Nat) : Bool :=
  i < currentQuestionIdx

/-- The progress dot state `isCurrent = i === currentQuestionIdx`. -/
def isCurrentDot (i currentQuestionIdx : Nat) : Bool :=
  i = currentQuestionIdx

/-- The fixed question count `21` used by the progress indicator. -/
def totalQuestions : Nat := 21

/-- JavaScript `Math.round` on a (non-`NaN`) number modelled exactly over
the rationals: round half toward positive infinity, `⌊x + 1/2⌋`. -/
def jsRound (x : ℚ) : ℤ := ⌊x + 1 / 2⌋

/-- The displayed completion percentage
`Math.round((currentQuestionIdx / 21) * 100)`. -/
def progressPercent (currentQuestionIdx : Nat) : ℤ :=
  jsRound ((currentQuestionIdx : ℚ) / 21 * 100)

/-- The specification's formula for the completion percentage: answered
count divided by the total question count, scaled to 100 and rounded. -/
def specPercent (answered total : Nat) : ℤ :=
  jsRound ((answered : ℚ) * 100 / total)

/-! ### The API client (`src/frontend/lib/api.ts`)

Each wrapper performs a `fetch`, throws when the response is not ok, and
otherwise returns the parsed JSON body.  An HTTP response is embedded as
its ok flag together with the value `res.json()` would produce; a thrown
`Error` is the `Except.error` carrying its message. -/

/-- An HTTP response as seen by an API wrapper: the `ok` flag and the
parsed JSON body. -/
structure Response (α : Type) where
  ok : Bool
  json : α
deriving DecidableEq, Repr

/-- The parsed body of `POST /api/assessment/start`:
`{ success: boolean; assessment_id?: string; error?: string }`. -/
structure StartResponse where
  success : Bool
  assessment_id : Option String
  error : Option String
deriving DecidableEq, Repr

/-- The parsed body of `POST /api/assessment/:id/answer`:
`{ success: boolean; error?: string }`. -/
structure SubmitResponse where
  success : Bool
  error : Option String
deriving DecidableEq, Repr

/-- The `local_examples` field of the guidance payload. -/
structure LocalExamples where
  good_practice : Option String
  common_mistake : Option String
deriving DecidableEq, Repr

/-- The `AssessmentGuidance` interface of the API client. -/
structure AssessmentGuidance where
  explanation : Option String
  why_it_matters : Option String
  kenya_context : Option String
  improvement_tips : Option (List String)
  local_examples : Option LocalExamples
  next_steps : Option (List String)
  message : Option String
  detailed_explanation : Option String
deriving DecidableEq, Repr

/-- The parsed body of `GET /api/assessment/:id/next`: either
`{ completed: true }`, a question payload (an object with a `question`
field), or some other object (neither shape). -/
inductive NextQParsed
  | completedTrue
  | questionPayload (q : QuestionData)
  | other (q : QuestionData)
deriving DecidableEq, Repr

namespace Api

/-- `startAssessment`: `if (!res.ok) throw new Error("Failed to start assessment");
return res.json();` -/
def startAssessment (r : Response StartResponse) : Except String StartResponse :=
  if r.ok then .ok r.json else .error "Failed to start assessment"

/-- `getNextQuestion`: `if (!res.ok) throw new Error("Failed to fetch next question");
return res.json();` -/
def getNextQuestion (r : Response NextQParsed) : Except String NextQParsed :=
  if r.ok then .ok r.json else .error "Failed to fetch next question"

/-- `submitAnswer`: `if (!res.ok) throw new Error("Failed to submit answer");
return res.json();` -/
def submitAnswer (r : Response SubmitResponse) : Except String SubmitResponse :=
  if r.ok then .ok r.json else .error "Failed to submit answer"

/-- `getAssessmentGuidance`: `if (!res.ok) throw new Error("Failed to get guidance");
return res.json();` -/
def getAssessmentGuidance (r : Response AssessmentGuidance) :
    Except String AssessmentGuidance :=
  if r.ok then .ok r.json else .error "Failed to get guidance"

end Api

/-- The outcome of an awaited API call as observed by a handler: either the
promise rejected (the thrown error's message) or it resolved to a parsed
body. -/
inductive CallOutcome (α : Type)
  | threw (msg : String)
  | returned (v : α)
deriving DecidableEq, Repr

/-- The `useState` fields of `AssessmentPage` that the assessment flow
touches (chat state is independent and omitted). -/
structure UIState where
  businessInfo : BusinessInfo
  currentQuestionIdx : Nat
  showQuestions : Bool
  questionData : Option QuestionData
  answerLoading : Bool
  loading : Bool
  assessmentId : Option String
  error : Option String
deriving DecidableEq, Repr

/-- The initial component state: empty business info, index 0, no question,
nothing loading, no assessment identifier, no error. -/
def initialUIState : UIState :=
  { businessInfo := ⟨"", "", "", ""⟩
    currentQuestionIdx := 0
    showQuestions := false
    questionData := none
    answerLoading := false
    loading := false
    assessmentId := none
    error := none }

/-- The body of the answer button's `onClick` after `setAnswerLoading(true)`:
the `try`/`catch` around `submitAnswer` and `getNextQuestion`, followed by
the `finally` that clears `answerLoading`.  A thrown call, a failed
submission (`success` false), and an unrecognized next-question payload all
leave the question state untouched; a `completed` payload clears
`questionData`; a question payload installs it and advances the index. -/
def settleAnswer (s : UIState) (sub : CallOutcome SubmitResponse)
    (nxt : CallOutcome NextQParsed) : UIState :=
  let s' :=
    match sub with
    | .threw _ => s
    | .returned r =>
      if r.success then
        match nxt with
        | .threw _ => s
        | .returned .completedTrue => { s with questionData := none }
        | .returned (.questionPayload q) =>
            { s with questionData := some q
                     currentQuestionIdx := s.currentQuestionIdx + 1 }
        | .returned (.other _) => s
      else s
  { s' with answerLoading := false }

/-- The answer button's `onClick` handler as one atomic step: the
`if (!assessmentId || !questionData) return;` guard, `setAnswerLoading(true)`,
then `settleAnswer`. -/
def answerClick (s : UIState) (sub : CallOutcome SubmitResponse)
    (nxt : CallOutcome NextQParsed) : UIState :=
  if s.assessmentId = none ∨ s.questionData = none then s
  else settleAnswer { s with answerLoading := true } sub nxt

/-- The start form's `onSubmit` handler as one atomic step, parameterized by
the outcomes of `startAssessment(cleanBusinessInfo)` and, when that
succeeds with an identifier, of the follow-up `getNextQuestion`. -/
def startSubmit (s : UIState) (start : CallOutcome StartResponse)
    (nxt : CallOutcome NextQParsed) : UIState :=
  let s0 := { s with loading := true, error := none }
  let s1 :=
    match start with
    | .threw msg => { s0 with error := some msg }
    | .returned r =>
      if r.success = false ∨ r.assessment_id = none then
        { s0 with error := some (r.error.getD "Failed to start assessment") }
      else
        let s2 := { s0 with assessmentId := r.assessment_id, showQuestions := true }
        match nxt with
        | .threw msg => { s2 with error := some msg }
        | .returned .completedTrue =>
            { s2 with questionData := none, currentQuestionIdx := 0 }
        | .returned (.questionPayload q) =>
            { s2 with questionData := some q, currentQuestionIdx := 0 }
        | .returned (.other q) =>
            { s2 with questionData := some q, currentQuestionIdx := 0 }
  { s1 with loading := false }

/-- The `submitAnswer` request body built by the answer button's `onClick`:
`{ section_id: questionData.section_id, question_id: questionData.question_id,
score: parseInt(score) }`. -/
structure AnswerRequest where
  section_id : String
  question_id : String
  score : Option Int
deriving DecidableEq, Repr

/-- The request the handler sends for a click on the rubric button keyed by
`scoreKey`, while `questionData` holds `q`. -/
def answerRequest (q : QuestionData) (scoreKey : String) : AnswerRequest :=
  { section_id := q.section_id
    question_id := q.question_id
    score := parseIntJS scoreKey }

/-! ### The in-flight-submission machine

`disabled={answerLoading}` on every answer button means a click while a
submission is pending is dropped by the browser.  To reason about "at most
one `submit_answer` in flight", the click and its settlement are separated
into two events, with a ghost counter of in-flight submissions. -/

/-- A UI state paired with the number of in-flight answer submissions. -/
structure MState where
  ui : UIState
  inFlight : Nat
deriving DecidableEq, Repr

/-- Events of the answer-submission machine: a button click (dropped when
the buttons are disabled or the handler's guard fails), or the settlement
of the pending submission with the two calls' outcomes. -/
inductive AEvent
  | click
  | settle (sub : CallOutcome SubmitResponse) (nxt : CallOutcome NextQParsed)

/-- One step of the answer-submission machine. -/
def astep (m : MState) : AEvent → MState
  | .click =>
    if m.ui.answerLoading ∨ m.ui.assessmentId = none ∨ m.ui.questionData = none then m
    else ⟨{ m.ui with answerLoading := true }, m.inFlight + 1⟩
  | .settle sub nxt =>
    if m.inFlight = 0 then m
    else ⟨settleAnswer m.ui sub nxt, m.inFlight - 1⟩

/-- The machine states reachable from a rendered state with no submission
pending (`answerLoading` starts false and every in-flight call has been
counted). -/
inductive ReachableM : MState → Prop
  | init (u : UIState) : u.answerLoading = false → ReachableM ⟨u, 0⟩
  | step (m : MState) (e : AEvent) : ReachableM m → ReachableM (astep m e)

/-! ### The backend session state machine

The backend (served at `/api/assessment/...`) is not part of `src/`; the
session record and its three operations are modelled from the
specification. -/

/-- A catalog entry of the flattened question sequence (sections
concatenated in fixed order). -/
structure CatalogQ where
  id : String
  sectionId : String
  sectionName : String
deriving DecidableEq, Repr

/-- The three error kinds of the specification. -/
inductive SessionError
  | validation
  | notFound
  | conflict
deriving DecidableEq, Repr

/-- Modelled from the spec: the mutable Assessment Session record — trimmed
business profile, cursor into the flattened sequence, answer mapping
(question identifier → recorded score), completion flag. -/
structure Session where
  profile : BusinessInfo
  cursor : Nat
  answers : List (String × Int)
  completed : Bool
deriving DecidableEq, Repr

/-- Modelled from the spec: `start(business profile)` — fails with
`ValidationError` if any required field is empty after trimming, otherwise
creates a session with the trimmed profile, cursor 0, empty answers and a
cleared completion flag. -/
def startB (b : BusinessInfo) : Except SessionError Session :=
  let t : BusinessInfo := ⟨trimJS b.name, trimJS b.industry, trimJS b.size, trimJS b.location⟩
  if t.name = "" ∨ t.industry = "" ∨ t.size = "" ∨ t.location = "" then
    .error .validation
  else
    .ok { profile := t, cursor := 0, answers := [], completed := false }

/-- The payload of `next_question`: a completion signal with no question, or
the question at the cursor. -/
inductive NextResult
  | completedSignal
  | question (q : CatalogQ)
deriving DecidableEq, Repr

/-- Modelled from the spec: `next_question` on a looked-up session — at the
end of the flattened sequence it returns the completion signal and
(idempotently) sets the completion flag; otherwise it is a pure read
returning the question at the cursor. -/
def nextQuestionB (cat : List CatalogQ) (s : Session) : Session × NextResult :=
  match cat.get? s.cursor with
  | none => ({ s with completed := true }, .completedSignal)
  | some q => (s, .question q)

/-- Modelled from the spec: `submit_answer` — `ValidationError` unless the
score is an integer in `[1,5]`, `ConflictError` unless `question_id` is the
question at the cursor; on success records the score, advances the cursor
by one, and sets the completion flag when the new cursor reaches the end.
Returns the new session and whether it is now complete. -/
def submitAnswerB (cat : List CatalogQ) (s : Session) (qid : String) (score : Int) :
    Except SessionError (Session × Bool) :=
  if score < 1 ∨ 5 < score then .error .validation
  else
    match cat.get? s.cursor with
    | none => .error .conflict
    | some q =>
      if q.id = qid then
        let s2 : Session :=
          { profile := s.profile
            cursor := s.cursor + 1
            answers := s.answers ++ [(qid, score)]
            completed := s.completed || decide (s.cursor + 1 = cat.length) }
        .ok (s2, s2.completed)
      else .error .conflict

/-- The backend sessions reachable through the specified operations:
created by `start`, then mutated only by successful `submit_answer` calls
and by `next_question` reads. -/
inductive ReachableB (cat : List CatalogQ) : Session → Prop
  | start (b : BusinessInfo) (s : Session) :
      startB b = .ok s → ReachableB cat s
  | submit (s s' : Session) (qid : String) (score : Int) (c : Bool) :
      ReachableB cat s → submitAnswerB cat s qid score = .ok (s', c) →
      ReachableB cat s'
  | read (s : Session) :
      ReachableB cat s → ReachableB cat (nextQuestionB cat s).1

/-! ### Helper lemmas -/

/-- Clearing `answerLoading` is the last thing `settleAnswer` does. -/
lemma settleAnswer_answerLoading (s : UIState) (sub : CallOutcome SubmitResponse)
    (nxt : CallOutcome NextQParsed) : (settleAnswer s sub nxt).answerLoading = false :=
  rfl

/-- When the handler's guard fires, the click is a no-op. -/
lemma answerClick_of_guard (s : UIState) (sub : CallOutcome SubmitResponse)
    (nxt : CallOutcome NextQParsed) (h : s.assessmentId = none ∨ s.questionData = none) :
    answerClick s sub nxt = s := by
  simp [answerClick, h]

/-- `settleAnswer` does not touch the question index or the displayed
question unless the submission succeeded. -/
lemma settleAnswer_of_fail (s : UIState) (sub : CallOutcome SubmitResponse)
    (nxt : CallOutcome NextQParsed)
    (hfail : (∃ m, sub = .threw m) ∨ ∃ r, sub = .returned r ∧ r.success = false) :
    settleAnswer s sub nxt = { s with answerLoading := false } := by
  rcases hfail with ⟨m, rfl⟩ | ⟨r, rfl, hr⟩
  · rfl
  · simp [settleAnswer, hr]

/-- A successful submission followed by a question payload advances the
index and installs the payload; a completion signal clears the payload and
leaves the index alone. -/
lemma settleAnswer_of_success (s : UIState) (r : SubmitResponse) (hr : r.success = true) :
    (∀ q, settleAnswer s (.returned r) (.returned (.questionPayload q)) =
      { s with questionData := some q, currentQuestionIdx := s.currentQuestionIdx + 1,
               answerLoading := false }) ∧
    settleAnswer s (.returned r) (.returned .completedTrue) =
      { s with questionData := none, answerLoading := false } := by
  constructor
  · intro q; simp [settleAnswer, hr]
  · simp [settleAnswer, hr]

/-- The index after a click is the old index or its successor. -/
lemma answerClick_idx (s : UIState) (sub : CallOutcome SubmitResponse)
    (nxt : CallOutcome NextQParsed) :
    (answerClick s sub nxt).currentQuestionIdx = s.currentQuestionIdx ∨
    (answerClick s sub nxt).currentQuestionIdx = s.currentQuestionIdx + 1 := by
  by_cases hg : s.assessmentId = none ∨ s.questionData = none
  · rw [answerClick_of_guard s sub nxt hg]; left; rfl
  · rcases sub with m | r
    · left; simp [answerClick, hg, settleAnswer]
    · rcases hr : r.success with _ | _
      · left
        simp [answerClick, hg, settleAnswer_of_fail _ _ _ (Or.inr ⟨r, rfl, hr⟩)]
      · rcases nxt with m | p
        · left; simp [answerClick, hg, settleAnswer, hr]
        · rcases p with _ | q | q
          · left
            simp [answerClick, hg, (settleAnswer_of_success _ r hr).2]
          · right
            simp [answerClick, hg, (settleAnswer_of_success _ r hr).1 q]
          · left; simp [answerClick, hg, settleAnswer, hr]

/-- Reachable backend sessions record answers for exactly the catalog
entries strictly before the cursor, in order. -/
lemma reachableB_keys (cat : List CatalogQ) (s : Session) (h : ReachableB cat s) :
    s.answers.map Prod.fst = (cat.take s.cursor).map CatalogQ.id := by
  induction h with
  | start b s hs =>
    simp only [startB] at hs
    split at hs
    · cases hs
    · cases hs; rfl
  | submit s s' qid score c _ hsub ih =>
    simp only [submitAnswerB] at hsub
    split at hsub
    · cases hsub
    · split at hsub
      · cases hsub
      · next q hq =>
        split at hsub
        · next hid =>
          cases hsub
          have hq' : cat[s.cursor]? = some q := by
            rw [← List.get?_eq_getElem?]; exact hq
          simp only [List.map_append, ih, List.take_succ, hq', Option.toList_some]
          simp [hid]
        · cases hsub
  | read s _ ih =>
    unfold nextQuestionB
    rcases hq : cat.get? s.cursor with _ | q <;> simpa [hq] using ih

/-- In a reachable session of a nonempty catalog, the completion flag is
set whenever the cursor has reached the end. -/
lemma reachableB_completed_at_end (cat : List CatalogQ) (hcat : cat ≠ [])
    (s : Session) (h : ReachableB cat s) :
    cat.length ≤ s.cursor → s.completed = true := by
  induction h with
  | start b s hs =>
    simp only [startB] at hs
    split at hs
    · cases hs
    · cases hs
      intro hle
      exact absurd (List.length_eq_zero.mp (Nat.le_zero.mp hle)) hcat
  | submit s s' qid score c _ hsub ih =>
    simp only [submitAnswerB] at hsub
    split at hsub
    · cases hsub
    · split at hsub
      · cases hsub
      · next q hq =>
        split at hsub
        · cases hsub
          intro hle
          obtain ⟨hlt, -⟩ := List.get?_eq_some.mp hq
          have heq : cat.length = s.cursor + 1 := Nat.le_antisymm hle hlt
          simp [heq]
        · cases hsub
  | read s _ ih =>
    unfold nextQuestionB
    rcases hq : cat.get? s.cursor with _ | q
    · simp
    · intro hle
      obtain ⟨hlt, -⟩ := List.get?_eq_some.mp hq
      exact absurd hle (Nat.not_le.mpr hlt)

/-- Inserting with the rubric comparator is a permutation of consing. -/
lemma insertByCmp_perm (x : String × String) (l : List (String × String)) :
    List.Perm (insertByCmp x l) (x :: l) := by
  induction l with
  | nil => exact List.Perm.refl _
  | cons z zs ih =>
    unfold insertByCmp
    split
    · exact List.Perm.refl _
    · exact (List.Perm.cons z ih).trans (List.Perm.swap x z zs)

/-- Folding `insertByCmp` over a list permutes the concatenation. -/
lemma foldl_insertByCmp_perm :
    ∀ (l acc : List (String × String)),
      List.Perm (l.foldl (fun a x => insertByCmp x a) acc) (l ++ acc)
  | [], acc => by simp
  | x :: xs, acc => by
    simp only [List.foldl_cons]
    exact ((foldl_insertByCmp_perm xs (insertByCmp x acc)).trans
      (List.Perm.append_left xs (insertByCmp_perm x acc))).trans
      List.perm_middle

/-- The rendered (sorted) rubric is a permutation of the question's rubric. -/
lemma sortedRubric_perm (q : QuestionData) :
    List.Perm (sortedRubric q) q.scoring_rubric := by
  simpa using foldl_insertByCmp_perm q.scoring_rubric []

/-- The in-flight counter mirrors `answerLoading` in every reachable
machine state. -/
lemma reachableM_inFlight (m : MState) (h : ReachableM m) :
    m.inFlight = if m.ui.answerLoading then 1 else 0 := by
  induction h with
  | init u hu => simp [hu]
  | step m e _ ih =>
    cases e with
    | click =>
      by_cases hg : m.ui.answerLoading = true ∨ m.ui.assessmentId = none ∨
          m.ui.questionData = none
      · simp only [astep, if_pos hg]; exact ih
      · simp only [astep, if_neg hg]
        push_neg at hg
        have h0 : m.inFlight = 0 := by rw [ih, if_neg hg.1]
        simp [h0]
    | settle sub nxt =>
      by_cases hz : m.inFlight = 0
      · simp only [astep, if_pos hz]; exact ih
      · simp only [astep, if_neg hz]
        have hl : m.ui.answerLoading = true := by
          by_contra hfalse
          rw [ih, if_neg hfalse] at hz
          exact hz rfl
        simp [settleAnswer_answerLoading, ih, hl]

/-! ### Claim theorems -/

/-- C2, counterexample: the start form does not trim every required
profile field — with an organization name of `" Acme "` the value sent is
`" Acme "` itself, not its trim, because `cleanBusinessInfo` only trims
the industry field. -/
theorem c2_trim_counterexample :
    (cleanBusinessInfo ⟨" Acme ", "Technology", "Small (1-50 employees)", "Nairobi"⟩).name ≠
      trimJS " Acme " := by
  decide

/-- C2 (amended): when an assessment is started the client trims only the
industry field before sending (name, size and location are sent as-is),
and the spec-modelled backend `start` fails with `ValidationError` exactly
when some required field is empty after trimming, otherwise storing the
fully trimmed profile with cursor 0, no answers, and a cleared completion
flag. -/
theorem c2_start_trim_validation (b : BusinessInfo) :
    (cleanBusinessInfo b).industry = trimJS b.industry ∧
    (cleanBusinessInfo b).name = b.name ∧
    (cleanBusinessInfo b).size = b.size ∧
    (cleanBusinessInfo b).location = b.location ∧
    (trimJS b.name = "" ∨ trimJS b.industry = "" ∨ trimJS b.size = "" ∨
        trimJS b.location = "" →
      startB b = .error .validation) ∧
    (¬(trimJS b.name = "" ∨ trimJS b.industry = "" ∨ trimJS b.size = "" ∨
        trimJS b.location = "") →
      startB b = .ok { profile := ⟨trimJS b.name, trimJS b.industry, trimJS b.size,
                                   trimJS b.location⟩
                       cursor := 0, answers := [], completed := false }) := by
  refine ⟨rfl, rfl, rfl, rfl, ?_, ?_⟩
  · intro h
    simp only [startB]
    rw [if_pos h]
  · intro h
    simp only [startB]
    rw [if_neg h]

/-- Witness for C2's amended theorem at concrete profiles. -/
theorem c2_start_trim_validation_witness :
    startB ⟨"  ", "Tech", "Small", "Nairobi"⟩ = .error .validation ∧
    startB ⟨" Acme ", "Tech", "Small", "Nairobi"⟩ =
      .ok { profile := ⟨trimJS " Acme ", trimJS "Tech", trimJS "Small", trimJS "Nairobi"⟩
            cursor := 0, answers := [], completed := false } ∧
    trimJS " Acme " = "Acme" := by
  refine ⟨?_, ?_, by decide⟩
  · exact (c2_start_trim_validation ⟨"  ", "Tech", "Small", "Nairobi"⟩).2.2.2.2.1
      (Or.inl (by decide))
  · exact (c2_start_trim_validation ⟨" Acme ", "Tech", "Small", "Nairobi"⟩).2.2.2.2.2
      (by decide)

/-- C3: a `submit_answer` call that fails — the promise rejected or the
response reported `success: false` — leaves the current-question index and
the displayed question unchanged; when no submission was pending before
the click, the entire UI state is unchanged. -/
theorem c3_failed_submit_leaves_state (s : UIState) (sub : CallOutcome SubmitResponse)
    (nxt : CallOutcome NextQParsed)
    (hfail : (∃ m, sub = .threw m) ∨ ∃ r, sub = .returned r ∧ r.success = false) :
    (answerClick s sub nxt).currentQuestionIdx = s.currentQuestionIdx ∧
    (answerClick s sub nxt).questionData = s.questionData ∧
    (s.answerLoading = false → answerClick s sub nxt = s) := by
  by_cases hg : s.assessmentId = none ∨ s.questionData = none
  · simp [answerClick_of_guard s sub nxt hg]
  · have h := settleAnswer_of_fail { s with answerLoading := true } sub nxt hfail
    simp only [answerClick, if_neg hg, h]
    refine ⟨by trivial, by trivial, fun hl => ?_⟩
    cases s
    simp_all

/-- Witness for C3 at a concrete state and a failed submission. -/
theorem c3_failed_submit_witness :
    answerClick
      { businessInfo := ⟨"Acme", "Tech", "Small", "Nairobi"⟩
        currentQuestionIdx := 3, showQuestions := true
        questionData := some ⟨"Q4", "s2", "Technology Infrastructure", "q", none, [("1", "a")]⟩
        answerLoading := false, loading := false
        assessmentId := some "a1", error := none }
      (.returned ⟨false, some "boom"⟩) (.returned .completedTrue) =
      { businessInfo := ⟨"Acme", "Tech", "Small", "Nairobi"⟩
        currentQuestionIdx := 3, showQuestions := true
        questionData := some ⟨"Q4", "s2", "Technology Infrastructure", "q", none, [("1", "a")]⟩
        answerLoading := false, loading := false
        assessmentId := some "a1", error := none } :=
  (c3_failed_submit_leaves_state _ _ _ (Or.inr ⟨⟨false, some "boom"⟩, rfl, rfl⟩)).2.2 rfl

/-- C4: with the cursor at the end of the flattened sequence the
spec-modelled `next_question` returns the completion signal, which carries
no question payload, and the client's answer handler clears the displayed
question (`questionData` becomes `null`) on such a response. -/
theorem c4_completion_signal (cat : List CatalogQ) (s : Session) (u : UIState)
    (r : SubmitResponse) (hend : cat.length ≤ s.cursor)
    (hid : u.assessmentId ≠ none) (hqd : u.questionData ≠ none) (hr : r.success = true) :
    (nextQuestionB cat s).2 = .completedSignal ∧
    (answerClick u (.returned r) (.returned .completedTrue)).questionData = none := by
  constructor
  · have hq : cat[s.cursor]? = none := by
      rw [← List.get?_eq_getElem?]
      exact List.get?_eq_none.mpr hend
    simp [nextQuestionB, hq]
  · have hg : ¬(u.assessmentId = none ∨ u.questionData = none) := by
      intro h
      rcases h with h | h
      · exact hid h
      · exact hqd h
    simp only [answerClick, if_neg hg, (settleAnswer_of_success _ r hr).2]

/-- Witness for C4 at a one-question catalog with the cursor at the end. -/
theorem c4_completion_signal_witness :
    (nextQuestionB [⟨"Q1", "s1", "Data Infrastructure"⟩]
        ⟨⟨"A", "B", "C", "D"⟩, 1, [("Q1", 3)], true⟩).2 = .completedSignal ∧
    (answerClick
        { businessInfo := ⟨"A", "B", "C", "D"⟩
          currentQuestionIdx := 0, showQuestions := true
          questionData := some ⟨"Q1", "s1", "Data Infrastructure", "q", none, [("1", "a")]⟩
          answerLoading := false, loading := false
          assessmentId := some "a1", error := none }
        (.returned ⟨true, none⟩) (.returned .completedTrue)).questionData = none :=
  c4_completion_signal [⟨"Q1", "s1", "Data Infrastructure"⟩]
    ⟨⟨"A", "B", "C", "D"⟩, 1, [("Q1", 3)], true⟩ _ ⟨true, none⟩
    (by decide) (by decide) (by decide) rfl

/-- C6: for every cursor value up to the total question count the displayed
percentage `Math.round((currentQuestionIdx / 21) * 100)` equals the
answered count divided by the total question count, scaled to 100 and
rounded. -/
theorem c6_progress_percent (idx : Nat) (_h : idx ≤ totalQuestions) :
    progressPercent idx = specPercent idx totalQuestions := by
  have harg : ((idx : ℚ) / 21 * 100) = ((idx : ℚ) * 100 / ((21 : Nat) : ℚ)) := by
    push_cast
    ring
  simp only [progressPercent, specPercent, totalQuestions, harg]

/-- Witness for C6 at cursor 10. -/
theorem c6_progress_percent_witness :
    10 ≤ totalQuestions ∧ progressPercent 10 = specPercent 10 totalQuestions :=
  ⟨by decide, c6_progress_percent 10 (by decide)⟩

/-- C9: each of the four API wrappers throws (with its fixed message) when
the HTTP response is not ok, so the caller receives a parsed body exactly
for ok responses. -/
theorem c9_wrappers_throw_on_http_error (r1 : Response StartResponse)
    (r2 : Response NextQParsed) (r3 : Response SubmitResponse)
    (r4 : Response AssessmentGuidance) :
    (r1.ok = false → Api.startAssessment r1 = .error "Failed to start assessment") ∧
    (r1.ok = true → Api.startAssessment r1 = .ok r1.json) ∧
    (r2.ok = false → Api.getNextQuestion r2 = .error "Failed to fetch next question") ∧
    (r2.ok = true → Api.getNextQuestion r2 = .ok r2.json) ∧
    (r3.ok = false → Api.submitAnswer r3 = .error "Failed to submit answer") ∧
    (r3.ok = true → Api.submitAnswer r3 = .ok r3.json) ∧
    (r4.ok = false → Api.getAssessmentGuidance r4 = .error "Failed to get guidance") ∧
    (r4.ok = true → Api.getAssessmentGuidance r4 = .ok r4.json) := by
  refine ⟨?_, ?_, ?_, ?_, ?_, ?_, ?_, ?_⟩ <;> intro h <;>
    simp [Api.startAssessment, Api.getNextQuestion, Api.submitAnswer,
      Api.getAssessmentGuidance, h]

/-- Witness for C9 at concrete ok and non-ok responses. -/
theorem c9_wrappers_witness :
    Api.startAssessment ⟨false, ⟨false, none, none⟩⟩ =
      .error "Failed to start assessment" ∧
    Api.getNextQuestion ⟨true, .completedTrue⟩ = .ok .completedTrue ∧
    Api.submitAnswer ⟨false, ⟨true, none⟩⟩ = .error "Failed to submit answer" ∧
    Api.getAssessmentGuidance ⟨true, ⟨none, none, none, none, none, none, none, none⟩⟩ =
      .ok ⟨none, none, none, none, none, none, none, none⟩ := by
  have h := c9_wrappers_throw_on_http_error ⟨false, ⟨false, none, none⟩⟩
    ⟨true, .completedTrue⟩ ⟨false, ⟨true, none⟩⟩
    ⟨true, ⟨none, none, none, none, none, none, none, none⟩⟩
  exact ⟨h.1 rfl, h.2.2.2.1 rfl, h.2.2.2.2.1 rfl, h.2.2.2.2.2.2.2 rfl⟩

/-- C1, counterexample: the final successful answer does not advance the
frontend cursor — with the index at 20 on the last question, a successful
submission followed by the completion signal leaves the index at 20, not
21, because only the question-payload branch increments it. -/
theorem c1_final_answer_counterexample :
    (answerClick
        { businessInfo := ⟨"Acme", "Tech", "Small", "Nairobi"⟩
          currentQuestionIdx := 20, showQuestions := true
          questionData := some ⟨"Q21", "s6", "Regulatory & Compliance Readiness", "q",
            none, [("1", "a")]⟩
          answerLoading := false, loading := false
          assessmentId := some "a1", error := none }
        (.returned ⟨true, none⟩) (.returned .completedTrue)).currentQuestionIdx ≠ 20 + 1 ∧
    (answerClick
        { businessInfo := ⟨"Acme", "Tech", "Small", "Nairobi"⟩
          currentQuestionIdx := 20, showQuestions := true
          questionData := some ⟨"Q21", "s6", "Regulatory & Compliance Readiness", "q",
            none, [("1", "a")]⟩
          answerLoading := false, loading := false
          assessmentId := some "a1", error := none }
        (.returned ⟨true, none⟩) (.returned .completedTrue)).currentQuestionIdx = 20 := by
  exact ⟨by decide, by decide⟩

/-- C1 (amended): the frontend cursor never decreases across a click and
moves by at most one; a successful submission answered with a question
payload advances it by exactly one, while the final successful submission
(the completion signal) leaves the cursor unchanged and clears the
displayed question instead. -/
theorem c1_cursor_monotone_step (s : UIState) (sub : CallOutcome SubmitResponse)
    (nxt : CallOutcome NextQParsed) :
    s.currentQuestionIdx ≤ (answerClick s sub nxt).currentQuestionIdx ∧
    ((answerClick s sub nxt).currentQuestionIdx = s.currentQuestionIdx ∨
      (answerClick s sub nxt).currentQuestionIdx = s.currentQuestionIdx + 1) ∧
    (∀ (r : SubmitResponse) (q : QuestionData),
      ¬(s.assessmentId = none ∨ s.questionData = none) → r.success = true →
      (answerClick s (.returned r) (.returned (.questionPayload q))).currentQuestionIdx =
        s.currentQuestionIdx + 1) ∧
    (∀ r : SubmitResponse,
      ¬(s.assessmentId = none ∨ s.questionData = none) → r.success = true →
      (answerClick s (.returned r) (.returned .completedTrue)).currentQuestionIdx =
        s.currentQuestionIdx ∧
      (answerClick s (.returned r) (.returned .completedTrue)).questionData = none) := by
  refine ⟨?_, answerClick_idx s sub nxt, ?_, ?_⟩
  · rcases answerClick_idx s sub nxt with h | h <;> omega
  · intro r q hg hr
    simp [answerClick, if_neg hg, (settleAnswer_of_success _ r hr).1 q]
  · intro r hg hr
    simp [answerClick, if_neg hg, (settleAnswer_of_success _ r hr).2]

/-- Witness for C1's amended theorem: a mid-assessment successful answer
advances the cursor from 5 to 6. -/
theorem c1_cursor_monotone_step_witness :
    (answerClick
        { businessInfo := ⟨"Acme", "Tech", "Small", "Nairobi"⟩
          currentQuestionIdx := 5, showQuestions := true
          questionData := some ⟨"Q6", "s2", "Technology Infrastructure", "q", none,
            [("1", "a")]⟩
          answerLoading := false, loading := false
          assessmentId := some "a1", error := none }
        (.returned ⟨true, none⟩)
        (.returned (.questionPayload ⟨"Q7", "s2", "Technology Infrastructure", "q2",
          none, [("1", "a")]⟩))).currentQuestionIdx = 5 + 1 :=
  (c1_cursor_monotone_step _ (.returned ⟨true, none⟩)
      (.returned (.questionPayload ⟨"Q7", "s2", "Technology Infrastructure", "q2",
        none, [("1", "a")]⟩))).2.2.1
    ⟨true, none⟩ ⟨"Q7", "s2", "Technology Infrastructure", "q2", none, [("1", "a")]⟩
    (by decide) rfl

/-- C5: in every reachable backend session the recorded answer keys are
exactly the identifiers of the catalog questions at flattened indices
below the cursor, in order; when the catalog identifiers are distinct, no
question at or past the cursor (an element of `cat.drop cursor`) has a
recorded answer; and the progress dot at index `i` is marked completed iff
`i < cursor`. -/
theorem c5_answers_below_cursor (cat : List CatalogQ) (s : Session)
    (h : ReachableB cat s) :
    s.answers.map Prod.fst = (cat.take s.cursor).map CatalogQ.id ∧
    ((cat.map CatalogQ.id).Nodup →
      ∀ q ∈ cat.drop s.cursor, q.id ∉ s.answers.map Prod.fst) ∧
    (∀ i idx : Nat, isCompletedDot i idx = true ↔ i < idx) := by
  refine ⟨reachableB_keys cat s h, ?_, ?_⟩
  · intro hnd q hq hmem
    rw [reachableB_keys cat s h] at hmem
    have h1 : q.id ∈ (cat.map CatalogQ.id).take s.cursor := by
      rw [← List.map_take]
      exact hmem
    have h2 : q.id ∈ (cat.map CatalogQ.id).drop s.cursor := by
      rw [← List.map_drop]
      exact List.mem_map_of_mem _ hq
    have hsplit := List.take_append_drop s.cursor (cat.map CatalogQ.id)
    rw [← hsplit] at hnd
    exact (List.nodup_append.mp hnd).2.2 h1 h2
  · intro i idx
    simp [isCompletedDot]

/-- Witness for C5 after one answered question in a one-question catalog. -/
theorem c5_answers_below_cursor_witness :
    ([(("Q1" : String), (3 : Int))].map Prod.fst =
      (([⟨"Q1", "s1", "Data Infrastructure"⟩] : List CatalogQ).take 1).map CatalogQ.id) ∧
    (isCompletedDot 0 1 = true ↔ 0 < 1) := by
  have hr : ReachableB [⟨"Q1", "s1", "Data Infrastructure"⟩]
      ⟨⟨"A", "B", "C", "D"⟩, 1, [("Q1", 3)], true⟩ :=
    ReachableB.submit ⟨⟨"A", "B", "C", "D"⟩, 0, [], false⟩ _ "Q1" 3 true
      (ReachableB.start ⟨"A", "B", "C", "D"⟩ _ rfl) rfl
  have h := c5_answers_below_cursor _ _ hr
  exact ⟨h.1, h.2.2 0 1⟩

/-- C7: on any reachable session of a nonempty catalog, `next_question`
mutates no session state, and two consecutive calls with no intervening
`submit_answer` return identical output. -/
theorem c7_next_question_idempotent (cat : List CatalogQ) (s : Session)
    (hcat : cat ≠ []) (h : ReachableB cat s) :
    (nextQuestionB cat s).1 = s ∧
    (nextQuestionB cat (nextQuestionB cat s).1).2 = (nextQuestionB cat s).2 := by
  have h1 : (nextQuestionB cat s).1 = s := by
    unfold nextQuestionB
    rcases hq : cat.get? s.cursor with _ | q
    · have hend : cat.length ≤ s.cursor := List.get?_eq_none.mp hq
      have hc := reachableB_completed_at_end cat hcat s h hend
      rcases s with ⟨p, cur, ans, comp⟩
      simp_all
    · simp [hq]
  exact ⟨h1, by rw [h1]⟩

/-- Witness for C7 on a completed reachable one-question session. -/
theorem c7_next_question_idempotent_witness :
    (nextQuestionB [⟨"Q1", "s1", "Data Infrastructure"⟩]
        ⟨⟨"A", "B", "C", "D"⟩, 1, [("Q1", 3)], true⟩).1 =
      ⟨⟨"A", "B", "C", "D"⟩, 1, [("Q1", 3)], true⟩ := by
  have hr : ReachableB [⟨"Q1", "s1", "Data Infrastructure"⟩]
      ⟨⟨"A", "B", "C", "D"⟩, 1, [("Q1", 3)], true⟩ :=
    ReachableB.submit ⟨⟨"A", "B", "C", "D"⟩, 0, [], false⟩ _ "Q1" 3 true
      (ReachableB.start ⟨"A", "B", "C", "D"⟩ _ rfl) rfl
  exact (c7_next_question_idempotent _ _ (by decide) hr).1

/-- C8: in every reachable machine state at most one answer submission is
in flight, and while one is pending (`answerLoading` true) a further click
is a no-op — the disabled buttons cannot start a second submission. -/
theorem c8_at_most_one_in_flight (m : MState) (h : ReachableM m) :
    m.inFlight ≤ 1 ∧ (m.ui.answerLoading = true → astep m .click = m) := by
  have hi := reachableM_inFlight m h
  constructor
  · rw [hi]
    split <;> omega
  · intro hl
    simp [astep, hl]

/-- Witness for C8: after one click from an idle state with a question
displayed, a second click changes nothing and the in-flight count is at
most one. -/
theorem c8_at_most_one_in_flight_witness :
    (astep (astep ⟨{ initialUIState with
                     assessmentId := some "a1"
                     questionData := some ⟨"Q1", "s1", "Data Infrastructure", "q", none,
                       [("1", "a")]⟩ }, 0⟩ AEvent.click) AEvent.click) =
      astep ⟨{ initialUIState with
               assessmentId := some "a1"
               questionData := some ⟨"Q1", "s1", "Data Infrastructure", "q", none,
                 [("1", "a")]⟩ }, 0⟩ AEvent.click ∧
    (astep ⟨{ initialUIState with
              assessmentId := some "a1"
              questionData := some ⟨"Q1", "s1", "Data Infrastructure", "q", none,
                [("1", "a")]⟩ }, 0⟩ AEvent.click).inFlight ≤ 1 := by
  have hr : ReachableM (astep ⟨{ initialUIState with
      assessmentId := some "a1"
      questionData := some ⟨"Q1", "s1", "Data Infrastructure", "q", none,
        [("1", "a")]⟩ }, 0⟩ AEvent.click) :=
    ReachableM.step _ _ (ReachableM.init _ rfl)
  have h := c8_at_most_one_in_flight _ hr
  exact ⟨h.2 (by decide), h.1⟩

/-- C10: a submit request built by a rubric button click targets the
currently displayed question: it carries that question's `question_id`
and `section_id`, its score is `parseInt` of the clicked rubric key, the
clicked key is one of the question's scoring-rubric keys, and the score
lies in the `parseInt` image of the rubric keys. -/
theorem c10_request_targets_current_question (q : QuestionData) (k : String)
    (hk : k ∈ (sortedRubric q).map Prod.fst) :
    (answerRequest q k).question_id = q.question_id ∧
    (answerRequest q k).section_id = q.section_id ∧
    (answerRequest q k).score = parseIntJS k ∧
    k ∈ q.scoring_rubric.map Prod.fst ∧
    (answerRequest q k).score ∈ (q.scoring_rubric.map Prod.fst).map parseIntJS := by
  have hmem : k ∈ q.scoring_rubric.map Prod.fst :=
    ((sortedRubric_perm q).map Prod.fst).mem_iff.mp hk
  exact ⟨rfl, rfl, rfl, hmem, List.mem_map_of_mem parseIntJS hmem⟩

/-- Witness for C10 on a two-entry rubric rendered in sorted order. -/
theorem c10_request_targets_current_question_witness :
    (answerRequest ⟨"Q1", "s1", "Data Infrastructure", "q", none,
        [("2", "b"), ("1", "a")]⟩ "1").question_id = "Q1" ∧
    "1" ∈ ([("2", "b"), ("1", "a")] : List (String × String)).map Prod.fst ∧
    (answerRequest ⟨"Q1", "s1", "Data Infrastructure", "q", none,
        [("2", "b"), ("1", "a")]⟩ "1").score = parseIntJS "1" := by
  have h := c10_request_targets_current_question
    ⟨"Q1", "s1", "Data Infrastructure", "q", none, [("2", "b"), ("1", "a")]⟩ "1"
    (by decide)
  exact ⟨h.1, h.2.2.2.1, h.2.2.1⟩

end Assessment
